import Mathlib

/-!
Shallow embedding of the core logic of the `ai-prompt-enhancer` repository
(files `config_manager.py`, `prompt_manager.py`, `api_client.py`,
`main_window.py`).  Python dictionaries are modelled as insertion-ordered
association lists, the file system as an association list from paths to
contents, and the Qt main window as an explicit state record.  User
confirmation dialogs and file-chooser dialogs are modelled as oracle
arguments to the operations that may show them.
-/

/-! ## Association lists (Python `dict` / directory contents) -/

/-- Membership test on an association list, mirroring Python's `key in dict`. -/
def alContains {α : Type} : List (String × α) → String → Bool
  | [], _ => false
  | kv :: rest, k => kv.1 == k || alContains rest k

/-- Lookup on an association list, mirroring Python's `dict.get` / indexing. -/
def alGet {α : Type} : List (String × α) → String → Option α
  | [], _ => none
  | kv :: rest, k => if kv.1 == k then some kv.2 else alGet rest k

/-- Update/insert on an association list, mirroring Python's `dict[k] = v`:
the first entry with the key is replaced in place, otherwise the pair is
appended at the end (insertion order preserved). -/
def alSet {α : Type} : List (String × α) → String → α → List (String × α)
  | [], k, v => [(k, v)]
  | kv :: rest, k, v => if kv.1 == k then (k, v) :: rest else kv :: alSet rest k v

/-- Removal from an association list, mirroring `os.remove` on a directory
modelled as an association list. -/
def alErase {α : Type} : List (String × α) → String → List (String × α)
  | [], _ => []
  | kv :: rest, k => if kv.1 == k then rest else kv :: alErase rest k

/-- Python's `dict.update(other)`: every key/value pair of `other` is written
into the receiver in order. -/
def alUpdate {α : Type} (d other : List (String × α)) : List (String × α) :=
  other.foldl (fun acc kv => alSet acc kv.1 kv.2) d

/-! ## JSON values (`json.load` results in `config_manager.py`) -/

/-- JSON values as produced by Python's `json.load`. -/
inductive JVal where
  | jnull
  | jbool (b : Bool)
  | jnum (n : Int)
  | jstr (s : String)
  | jarr (xs : List JVal)
  | jobj (kvs : List (String × JVal))

/-- A Python dictionary holding JSON values. -/
abbrev JDict := List (String × JVal)

/-- Lookup of a key in a JSON value, defined when the value is an object
(mirrors `parsed.get(key)` on a dict; any other shape yields nothing). -/
def jGetKey (j : JVal) (k : String) : Option JVal :=
  match j with
  | .jobj kvs => alGet kvs k
  | _ => none

/-! ## `config_manager.py` -/

/-- The `DEFAULT_CONFIG` dictionary of `config_manager.py`. -/
def DEFAULT_CONFIG : JDict :=
  [("api_endpoint", .jstr "http://localhost:11434"),
   ("active_system_prompt", .jstr "default.txt"),
   ("api_type", .jstr "Ollama"),
   ("api_key", .jstr "")]

/-- The observable states of the `config.json` file that `load_config`
distinguishes: missing, unreadable (`IOError` on open/read), syntactically
invalid JSON (`json.JSONDecodeError`), or a parsed JSON object. -/
inductive ConfigFileState where
  | absent
  | unreadable
  | corruptJson
  | jsonObject (config : JDict)

/-- `config_manager.load_config`: returns the default configuration when the
file is absent, unreadable or corrupt; otherwise starts from a copy of
`DEFAULT_CONFIG`, overlays the loaded object with `dict.update`, and finally
re-adds any default key still missing (that last loop is kept from the
source even though the preceding `update` leaves no default key missing). -/
def load_config : ConfigFileState → JDict
  | .absent => DEFAULT_CONFIG
  | .unreadable => DEFAULT_CONFIG
  | .corruptJson => DEFAULT_CONFIG
  | .jsonObject config =>
      let final0 := alUpdate DEFAULT_CONFIG config
      DEFAULT_CONFIG.foldl
        (fun acc kv => if alContains acc kv.1 then acc else acc ++ [kv]) final0

/-! ## String helpers (Python `str.strip`, `in`, `"=" * 20`) -/

/-- Whitespace characters removed by Python's `str.strip()`. -/
def isSpaceChar (c : Char) : Bool :=
  c == ' ' || c == '\t' || c == '\n' || c == '\r' || c == '\x0B' || c == '\x0C'

/-- Python's `str.strip()`: drop whitespace from both ends. -/
def pstrip (s : String) : String :=
  String.mk (((s.data.dropWhile isSpaceChar).reverse.dropWhile isSpaceChar).reverse)

/-- Whether a character list starts with the given pattern. -/
def listStartsWith : List Char → List Char → Bool
  | _, [] => true
  | [], _ :: _ => false
  | a :: as, b :: bs => a == b && listStartsWith as bs

/-- Whether a character list contains the given pattern as a contiguous
subsequence. -/
def listContainsSeq : List Char → List Char → Bool
  | [], pat => pat.isEmpty
  | a :: as, pat => listStartsWith (a :: as) pat || listContainsSeq as pat

/-- Python's substring test `pat in s`. -/
def containsSub (s pat : String) : Bool :=
  listContainsSeq s.data pat.data

/-- Insertion of a string into a sorted list of strings. -/
def insertSorted (x : String) : List String → List String
  | [] => [x]
  | y :: ys => if x ≤ y then x :: y :: ys else y :: insertSorted x ys

/-- Python's `sorted` on a list of strings (ascending, stable). -/
def sortStrings : List String → List String
  | [] => []
  | x :: xs => insertSorted x (sortStrings xs)

/-- The separator block written by `_save_generated_prompt`:
`"\n\n" + "=" * 20 + "\n\n"`. -/
def SEPARATOR : String :=
  "\n\n" ++ String.mk (List.replicate 20 '=') ++ "\n\n"

/-! ## Association-list lemmas -/

theorem alContains_alSet_mono {α : Type} (d : List (String × α)) (k k' : String)
    (v : α) (h : alContains d k = true) : alContains (alSet d k' v) k = true := by
  induction d with
  | nil => simp [alContains] at h
  | cons kv rest ih =>
      simp only [alContains, Bool.or_eq_true, beq_iff_eq] at h
      simp only [alSet]
      by_cases hk : kv.1 == k'
      · rw [if_pos hk]
        simp only [alContains, Bool.or_eq_true, beq_iff_eq]
        rcases h with h | h
        · left
          have hkk : kv.1 = k' := by simpa using hk
          exact hkk ▸ h
        · right; exact h
      · rw [if_neg hk]
        simp only [alContains, Bool.or_eq_true, beq_iff_eq]
        rcases h with h | h
        · left; exact h
        · right; exact ih h

theorem alContains_alSet_self {α : Type} (d : List (String × α)) (k : String)
    (v : α) : alContains (alSet d k v) k = true := by
  induction d with
  | nil => simp [alSet, alContains]
  | cons kv rest ih =>
      simp only [alSet]
      by_cases hk : kv.1 == k
      · rw [if_pos hk]; simp [alContains]
      · rw [if_neg hk]
        simp only [alContains, Bool.or_eq_true]
        right; exact ih

theorem alContains_alUpdate_left {α : Type} (other d : List (String × α))
    (k : String) (h : alContains d k = true) :
    alContains (alUpdate d other) k = true := by
  induction other generalizing d with
  | nil => simpa [alUpdate]
  | cons kv rest ih =>
      simp only [alUpdate, List.foldl_cons]
      exact ih (alSet d kv.1 kv.2) (alContains_alSet_mono d k kv.1 kv.2 h)

theorem alGet_alSet_ne {α : Type} (d : List (String × α)) (k k' : String)
    (v : α) (h : k' ≠ k) : alGet (alSet d k' v) k = alGet d k := by
  induction d with
  | nil =>
      simp only [alSet, alGet]
      rw [if_neg (by simpa using h)]
  | cons kv rest ih =>
      simp only [alSet]
      by_cases hk : kv.1 == k'
      · rw [if_pos hk]
        have hkk : kv.1 = k' := by simpa using hk
        simp only [alGet]
        rw [if_neg (by simpa using h), if_neg (by simp [hkk]; simpa using h)]
      · rw [if_neg hk]
        simp only [alGet]
        by_cases hkv : kv.1 == k
        · rw [if_pos hkv, if_pos hkv]
        · rw [if_neg hkv, if_neg hkv]; exact ih

theorem alGet_alSet_self {α : Type} (d : List (String × α)) (k : String)
    (v : α) : alGet (alSet d k v) k = some v := by
  induction d with
  | nil => simp [alSet, alGet]
  | cons kv rest ih =>
      simp only [alSet]
      by_cases hk : kv.1 == k
      · rw [if_pos hk]; simp [alGet]
      · rw [if_neg hk]
        simp only [alGet]
        rw [if_neg hk]; exact ih

theorem alGet_alUpdate_notContains {α : Type} (other d : List (String × α))
    (k : String) (h : alContains other k = false) :
    alGet (alUpdate d other) k = alGet d k := by
  induction other generalizing d with
  | nil => simp [alUpdate]
  | cons kv rest ih =>
      simp only [alContains, Bool.or_eq_false_iff] at h
      simp only [alUpdate, List.foldl_cons]
      have step : alGet (alUpdate (alSet d kv.1 kv.2) rest) k
          = alGet (alSet d kv.1 kv.2) k := ih (alSet d kv.1 kv.2) h.2
      simp only [alUpdate] at step
      rw [step, alGet_alSet_ne]
      intro hkk
      simp [hkk] at h

theorem foldl_addMissing_id {α : Type} (l : List (String × α))
    (acc : List (String × α)) (h : ∀ kv ∈ l, alContains acc kv.1 = true) :
    l.foldl (fun a kv => if alContains a kv.1 then a else a ++ [kv]) acc = acc := by
  induction l with
  | nil => rfl
  | cons kv rest ih =>
      simp only [List.foldl_cons]
      rw [if_pos (h kv (List.mem_cons_self kv rest))]
      exact ih (fun kv' h' => h kv' (List.mem_cons_of_mem _ h'))

theorem default_config_self_keys :
    ∀ kv ∈ DEFAULT_CONFIG, alContains DEFAULT_CONFIG kv.1 = true := by
  decide

theorem load_config_jsonObject (config : JDict) :
    load_config (ConfigFileState.jsonObject config)
      = alUpdate DEFAULT_CONFIG config := by
  simp only [load_config]
  exact foldl_addMissing_id DEFAULT_CONFIG (alUpdate DEFAULT_CONFIG config)
    (fun kv hkv => alContains_alUpdate_left config DEFAULT_CONFIG kv.1
      (default_config_self_keys kv hkv))

/-- C10: whatever the state of the configuration file — absent, unreadable,
corrupt JSON, or a JSON object possibly missing keys — `load_config` returns
a dictionary containing all four keys `api_endpoint`, `active_system_prompt`,
`api_type` and `api_key`, and any of those keys not present in the file is
mapped to its `DEFAULT_CONFIG` value. -/
theorem load_config_supplies_all_keys (fs : ConfigFileState) (k : String)
    (hk : k = "api_endpoint" ∨ k = "active_system_prompt" ∨
          k = "api_type" ∨ k = "api_key") :
    alContains (load_config fs) k = true ∧
    (∀ config, fs = ConfigFileState.jsonObject config →
       alContains config k = false →
       alGet (load_config fs) k = alGet DEFAULT_CONFIG k) := by
  have hdk : alContains DEFAULT_CONFIG k = true := by
    rcases hk with h | h | h | h <;> subst h <;> decide
  cases fs with
  | absent =>
      refine ⟨hdk, ?_⟩
      intro config hc
      exact absurd hc (fun h => ConfigFileState.noConfusion h)
  | unreadable =>
      refine ⟨hdk, ?_⟩
      intro config hc
      exact absurd hc (fun h => ConfigFileState.noConfusion h)
  | corruptJson =>
      refine ⟨hdk, ?_⟩
      intro config hc
      exact absurd hc (fun h => ConfigFileState.noConfusion h)
  | jsonObject config =>
      rw [load_config_jsonObject]
      refine ⟨alContains_alUpdate_left config DEFAULT_CONFIG k hdk, ?_⟩
      intro config' hc hcc
      have hcfg : config = config' := by
        injection hc
      subst hcfg
      exact alGet_alUpdate_notContains config DEFAULT_CONFIG k hcc

/-- Witness for C10: a config file holding only `api_type` still yields the
default value for `api_key`, and the key is present. -/
theorem load_config_supplies_all_keys_witness :
    ("api_key" = "api_endpoint" ∨ "api_key" = "active_system_prompt" ∨
     "api_key" = "api_type" ∨ "api_key" = "api_key") ∧
    (alContains
       (load_config (ConfigFileState.jsonObject [("api_type", JVal.jstr "OpenAI")]))
       "api_key" = true ∧
     (∀ config,
        ConfigFileState.jsonObject [("api_type", JVal.jstr "OpenAI")]
          = ConfigFileState.jsonObject config →
        alContains config "api_key" = false →
        alGet (load_config (ConfigFileState.jsonObject
                  [("api_type", JVal.jstr "OpenAI")])) "api_key"
          = alGet DEFAULT_CONFIG "api_key")) :=
  ⟨Or.inr (Or.inr (Or.inr rfl)),
   load_config_supplies_all_keys
     (ConfigFileState.jsonObject [("api_type", JVal.jstr "OpenAI")]) "api_key"
     (Or.inr (Or.inr (Or.inr rfl)))⟩

/-! ## `main_window.py`: editing-session state -/

/-- The file system seen by the main window: a map from paths to file
contents. -/
abbrev Fs := List (String × String)

/-- The slice of `MainWindow` state that the editing-session and navigation
logic reads and writes: the stacked-widget index, the navigation-list row,
the two dirty flags, the generation save target (`save_target_file`), the
prompt-editor backing file (`current_prompt_editor_file`), and the prompt
editor widget's text / enabled / read-only state. -/
structure MainState where
  currentIndex : Nat
  navRow : Nat
  systemPromptEditorDirty : Bool
  promptEditorDirty : Bool
  saveTargetFile : Option String
  currentPromptEditorFile : Option String
  peContent : String
  peEnabled : Bool
  peReadOnlyFlag : Bool
  deriving DecidableEq

/-- View index of the Generator page (`GENERATOR_VIEW_INDEX`). -/
def GENERATOR_VIEW_INDEX : Nat := 0

/-- View index of the Prompt Editor page (`PROMPT_EDITOR_VIEW_INDEX`). -/
def PROMPT_EDITOR_VIEW_INDEX : Nat := 1

/-- View index of the System Prompts page (`SYSTEM_PROMPTS_VIEW_INDEX`). -/
def SYSTEM_PROMPTS_VIEW_INDEX : Nat := 2

/-- View index of the Settings page (`SETTINGS_VIEW_INDEX`). -/
def SETTINGS_VIEW_INDEX : Nat := 3

/-- `MainWindow._pe_mark_dirty`: the slot connected to the prompt editor's
`textChanged` signal; it sets the dirty flag only while the editor is
enabled and not read-only. -/
def pe_mark_dirty (s : MainState) : MainState :=
  if s.peEnabled && !s.peReadOnlyFlag then { s with promptEditorDirty := true }
  else s

/-- `MainWindow._pe_clear_dirty_flag`: unconditionally clears the prompt
editor's dirty flag. -/
def pe_clear_dirty_flag (s : MainState) : MainState :=
  { s with promptEditorDirty := false }

/-- `MainWindow._clear_dirty_flag`: clears the system-prompt editor's dirty
flag. -/
def clear_dirty_flag (s : MainState) : MainState :=
  { s with systemPromptEditorDirty := false }

/-- Setting the prompt editor's text (`pe_editor.setPlainText` /
`pe_editor.clear()`): the `textChanged` signal fires and runs
`_pe_mark_dirty` with the widget flags as they are at that moment. -/
def pe_set_text (s : MainState) (text : String) : MainState :=
  pe_mark_dirty { s with peContent := text }

/-- Outcome of `MainWindow._pe_close_file`. -/
inductive CloseOutcome where
  | noFile
  | declined
  | closed
  deriving DecidableEq

/-- `MainWindow._pe_close_file(force)`: returns immediately when no file is
open; if the session is dirty and not forced, asks for confirmation and
returns `declined` on a negative answer without touching any state;
otherwise clears the editor (which fires `textChanged`), disables it, clears
the generation save target when it equals the closed file, forgets the
backing file and clears the dirty flag. -/
def pe_close_file (confirm : Bool) (force : Bool) (s : MainState) :
    MainState × CloseOutcome :=
  match s.currentPromptEditorFile with
  | none => (s, CloseOutcome.noFile)
  | some path =>
      if !force && s.promptEditorDirty && !confirm then (s, CloseOutcome.declined)
      else
        let s1 := pe_set_text s ""
        let s2 := { s1 with peEnabled := false, peReadOnlyFlag := true }
        let s3 := if s2.saveTargetFile = some path
                  then { s2 with saveTargetFile := none } else s2
        let s4 := { s3 with currentPromptEditorFile := none }
        (pe_clear_dirty_flag s4, CloseOutcome.closed)

/-- `MainWindow._load_file_into_pe_editor(filepath)`: when the file does not
exist (or reading fails) an error is shown and `_pe_close_file(force=True)`
is run; on success the generation save target and the backing file are both
set to the path, the content is put into the editor (firing `textChanged`),
the editor is enabled and made writable, and the dirty flag is cleared. -/
def load_file_into_pe_editor (fs : Fs) (path : String) (s : MainState) :
    MainState :=
  match alGet fs path with
  | none => (pe_close_file true true s).1
  | some content =>
      let s1 := { s with saveTargetFile := some path,
                         currentPromptEditorFile := some path }
      let s2 := pe_set_text s1 content
      let s3 := { s2 with peEnabled := true, peReadOnlyFlag := false }
      pe_clear_dirty_flag s3

/-- The body of `MainWindow._on_nav_changed` that runs once the dirty gate
has allowed the switch: set the stacked-widget index to the requested row
and, when switching to the Prompt Editor view, reconcile the editor with the
generation save target (load it if it differs, force-close if the target was
cleared, or clear and disable the editor when both are absent). -/
def navSwitch (row : Nat) (fs : Fs) (s : MainState) : MainState :=
  let s1 := { s with currentIndex := row }
  if row == PROMPT_EDITOR_VIEW_INDEX then
    match s1.saveTargetFile, s1.currentPromptEditorFile with
    | some target, cur =>
        if cur = some target then s1
        else load_file_into_pe_editor fs target s1
    | none, some _ => (pe_close_file true true s1).1
    | none, none =>
        let s2 := pe_set_text s1 ""
        { s2 with peEnabled := false, peReadOnlyFlag := true }
  else s1

/-- `MainWindow._on_nav_changed(current_row)`: the navigation slot.  The
navigation list row has already moved to `row` when the slot runs.  A
confirmation is requested only when the view being left is the System
Prompts view with a dirty system-prompt editor, or the Prompt Editor view
with a dirty prompt-editor session; an affirmative answer clears that dirty
flag and the switch proceeds, a negative answer reverts the navigation row
and keeps the current view.  The second component reports whether a
confirmation dialog was shown. -/
def on_nav_changed (confirm : Bool) (row : Nat) (fs : Fs) (s0 : MainState) :
    MainState × Bool :=
  let s := { s0 with navRow := row }
  let previousIndex := s.currentIndex
  if previousIndex == SYSTEM_PROMPTS_VIEW_INDEX && s.systemPromptEditorDirty then
    if confirm then (navSwitch row fs (clear_dirty_flag s), true)
    else ({ s with navRow := previousIndex }, true)
  else if previousIndex == PROMPT_EDITOR_VIEW_INDEX && s.promptEditorDirty then
    if confirm then (navSwitch row fs (pe_clear_dirty_flag s), true)
    else ({ s with navRow := previousIndex }, true)
  else
    (navSwitch row fs s, false)

/-! ## `main_window.py`: saving generated prompts -/

/-- The content of the generation target after one append in
`_save_generated_prompt`: the file is created with the text when absent,
opened in append mode otherwise, and the separator is written first exactly
when the file pre-exists with positive size. -/
def appendedContent (old : Option String) (text : String) : String :=
  match old with
  | none => text
  | some c => if c.length > 0 then c ++ SEPARATOR ++ text else c ++ text

/-- `MainWindow._ask_save_target_file`: shows a save-file dialog
(`dialogResult`); on a chosen path the generation save target is set to it,
then the Prompt Editor view is reconciled — if the editor is dirty the user
is asked (`confirm`) whether to discard its changes and load the new target,
a decline keeping the old content (marked out of sync); a clean editor loads
the target directly.  A cancelled dialog clears the save target and reports
failure. -/
def ask_save_target_file (dialogResult : Option String) (confirm : Bool)
    (fs : Fs) (s : MainState) : MainState × Bool :=
  match dialogResult with
  | some filepath =>
      let s1 := { s with saveTargetFile := some filepath }
      if s1.promptEditorDirty then
        if confirm then (load_file_into_pe_editor fs filepath s1, true)
        else (s1, true)
      else (load_file_into_pe_editor fs filepath s1, true)
  | none => ({ s with saveTargetFile := none }, false)

/-- `MainWindow._save_generated_prompt`: strips the response text, aborts on
an empty or placeholder text; asks for a save target when none is set;
appends the text to the target (separator only when the file pre-exists and
is non-empty); and, when the target is the file open in the Prompt Editor,
reloads the editor from disk — after a confirmation (`confirmReload`) if the
editor is dirty, directly if it is clean.  Writing with no target path
raises and is caught, leaving the file system unchanged. -/
def save_generated_prompt (responseText : String) (dialogResult : Option String)
    (confirmAsk confirmReload : Bool) (fs : Fs) (s : MainState) :
    Fs × MainState :=
  let generated := pstrip responseText
  if generated == "" || containsSub generated "Generating..."
      || containsSub generated "Error:" then (fs, s)
  else
    let asked :=
      match s.saveTargetFile with
      | none => ask_save_target_file dialogResult confirmAsk fs s
      | some _ => (s, true)
    if !asked.2 then (fs, asked.1)
    else
      match asked.1.saveTargetFile with
      | none => (fs, asked.1)
      | some target =>
          let newContent := appendedContent (alGet fs target) generated
          let fs2 := alSet fs target newContent
          if asked.1.currentPromptEditorFile = some target then
            if asked.1.promptEditorDirty then
              if confirmReload then (fs2, load_file_into_pe_editor fs2 target asked.1)
              else (fs2, asked.1)
            else (fs2, load_file_into_pe_editor fs2 target asked.1)
          else (fs2, asked.1)

/-! ## `prompt_manager.py`: preset repository -/

/-- The distinguished default preset name (`DEFAULT_PROMPT_NAME`). -/
def DEFAULT_PROMPT_NAME : String := "default.txt"

/-- Result of `prompt_manager.delete_prompt_preset`: the returned boolean,
the preset directory afterwards, and whether `os.remove` was invoked. -/
structure DeleteResult where
  ok : Bool
  files : List (String × String)
  osRemoveCalled : Bool
  deriving DecidableEq

/-- `prompt_manager.delete_prompt_preset(filename)`: rejects an empty name
or the distinguished default before touching anything; otherwise, when the
file exists, asks for confirmation and removes the file on an affirmative
answer. -/
def delete_prompt_preset (filename : String) (confirm : Bool)
    (files : List (String × String)) : DeleteResult :=
  if filename == "" || filename == DEFAULT_PROMPT_NAME then
    ⟨false, files, false⟩
  else if alContains files filename then
    if confirm then ⟨true, alErase files filename, true⟩
    else ⟨false, files, false⟩
  else ⟨false, files, false⟩

/-- The preset-related state of the main window: the preset directory and
the active system prompt name. -/
structure PresetState where
  files : List (String × String)
  activeSystemPromptFile : String
  deriving DecidableEq

/-- Result of `MainWindow._delete_selected_preset`: the preset state
afterwards, whether `prompt_manager.delete_prompt_preset` was invoked at
all, and whether `os.remove` ran. -/
structure DeleteOutcome where
  state : PresetState
  repoDeleteCalled : Bool
  osRemoveCalled : Bool
  deriving DecidableEq

/-- `MainWindow._delete_selected_preset`: does nothing without a selection;
rejects (case-insensitively) the distinguished default name before calling
the repository; otherwise delegates to `delete_prompt_preset` and, when the
deleted preset was the active one, resets the active preset to the
default. -/
def delete_selected_preset (selected : Option String) (confirm : Bool)
    (st : PresetState) : DeleteOutcome :=
  match selected with
  | none => ⟨st, false, false⟩
  | some filename =>
      if filename.toLower == DEFAULT_PROMPT_NAME.toLower then ⟨st, false, false⟩
      else
        let r := delete_prompt_preset filename confirm st.files
        if r.ok then
          let active := if filename == st.activeSystemPromptFile
                        then DEFAULT_PROMPT_NAME else st.activeSystemPromptFile
          ⟨⟨r.files, active⟩, true, r.osRemoveCalled⟩
        else ⟨⟨r.files, st.activeSystemPromptFile⟩, true, r.osRemoveCalled⟩

/-! ## `api_client.py` and the worker (`ApiWorker.run`) -/

/-- Outcome of one HTTP exchange as the `api_client` functions observe it:
a timeout (`requests.exceptions.Timeout`), a connection-level failure
(`requests.exceptions.RequestException`), a non-success HTTP status
(`raise_for_status`), a body that is not valid JSON
(`json.JSONDecodeError`), or a parsed JSON payload. -/
inductive NetOutcome where
  | timeout
  | connError (msg : String)
  | httpError (status : Nat) (body : String)
  | badJson (msg : String)
  | ok (payload : JVal)

/-- Model-name extraction shared by the two branches of
`fetch_installed_models`: the entries of the array under `listKey` that are
objects carrying a string under `itemKey`, sorted ascending (non-conforming
payload shapes yield the empty list, as the broad `except` clauses do). -/
def extractSortedNames (payload : JVal) (listKey itemKey : String) :
    List String :=
  match jGetKey payload listKey with
  | some (.jarr items) =>
      sortStrings (items.filterMap (fun item =>
        match item with
        | .jobj kvs =>
            match alGet kvs itemKey with
            | some (.jstr name) => some name
            | _ => none
        | _ => none))
  | _ => []

/-- `api_client.fetch_installed_models`: every failure — missing endpoint,
unsupported API type, timeout, connection error, HTTP error, malformed
JSON — is caught inside the function and an empty list is returned; only a
parsed payload yields model names. -/
def fetch_installed_models (api_endpoint api_type : String) (net : NetOutcome) :
    List String :=
  if api_endpoint == "" then []
  else if api_type == "Ollama" then
    match net with
    | .ok payload => extractSortedNames payload "models" "name"
    | _ => []
  else if api_type == "OpenAI" then
    match net with
    | .ok payload => extractSortedNames payload "data" "id"
    | _ => []
  else []

/-- The dictionary returned by `api_client.generate_text`: either
`{"response": text}` or `{"error": message}`. -/
inductive GenResult where
  | response (text : String)
  | error (msg : String)
  deriving DecidableEq

/-- `api_client.generate_text`: every failure — missing endpoint, missing
model, a system-prompt template whose placeholder substitution raises
(`format_key_missing`), unsupported API type, timeout, connection error,
HTTP error, malformed JSON, or a payload without the expected `choices` —
is caught inside the function and returned as an `error` dictionary; the
function never lets an exception escape. -/
def generate_text (api_endpoint api_type selected_model : String)
    (format_key_missing : Bool) (net : NetOutcome) : GenResult :=
  if api_endpoint == "" then .error "API endpoint is not configured."
  else if selected_model == "" then .error "No AI model selected."
  else if api_type == "Ollama" then
    if format_key_missing then
      .error "System prompt for Ollama is missing placeholder"
    else
      match net with
      | .ok payload =>
          match jGetKey payload "response" with
          | some (.jstr text) => .response text
          | _ => .response ""
      | .timeout => .error "Request timed out trying to generate text."
      | .httpError status body =>
          .error ("HTTP error occurred: " ++ toString status ++ " " ++ body)
      | .connError msg => .error ("API request failed connecting: " ++ msg)
      | .badJson msg => .error ("Invalid JSON response received: " ++ msg)
  else if api_type == "OpenAI" then
    match net with
    | .ok payload =>
        match jGetKey payload "choices" with
        | some (.jarr (first :: _)) =>
            match jGetKey first "message" with
            | some msgObj =>
                match jGetKey msgObj "content" with
                | some (.jstr text) => .response (pstrip text)
                | _ => .response ""
            | _ => .response ""
        | _ => .error "API response did not contain expected choices data."
    | .timeout => .error "Request timed out trying to generate text."
    | .httpError status body =>
        .error ("HTTP error occurred: " ++ toString status ++ " " ++ body)
    | .connError msg => .error ("API request failed connecting: " ++ msg)
    | .badJson msg => .error ("Invalid JSON response received: " ++ msg)
  else .error ("Unsupported API type for generation: " ++ api_type)

/-- The signals a worker can emit (`WorkerSignals`). -/
inductive Sig where
  | models_fetched (models : List String)
  | generation_complete (result : GenResult)
  | error (msg : String)
  | finished
  deriving DecidableEq

/-- What the worker body `self.fn(*args)` did: returned a model list
(`fn == fetch_installed_models`), returned a result dictionary
(`fn == generate_text`), or raised an exception. -/
inductive FnOutcome where
  | retModels (models : List String)
  | retGen (result : GenResult)
  | raised (msg : String)

/-- `ApiWorker.run`: inside `try`, the returned value is emitted on the
signal matching the function identity; an exception is emitted on the
`error` signal; and `finally` always emits `finished` last. -/
def ApiWorker_run : FnOutcome → List Sig
  | .retModels ms => [.models_fetched ms, .finished]
  | .retGen r => [.generation_complete r, .finished]
  | .raised msg => [.error msg, .finished]

/-- A dispatched FetchModels task end to end: `fetch_installed_models`
catches all exceptions internally, so the worker body always returns a
list. -/
def run_fetch_task (endpoint apiType : String) (net : NetOutcome) : List Sig :=
  ApiWorker_run (FnOutcome.retModels (fetch_installed_models endpoint apiType net))

/-- A dispatched Generate task end to end: `generate_text` catches all
exceptions internally, so the worker body always returns a dictionary. -/
def run_generate_task (endpoint apiType model : String)
    (format_key_missing : Bool) (net : NetOutcome) : List Sig :=
  ApiWorker_run (FnOutcome.retGen
    (generate_text endpoint apiType model format_key_missing net))

/-- Whether a signal is a terminal outcome (success or error), as opposed to
the `finished` cleanup signal. -/
def isTerminalSig : Sig → Bool
  | .models_fetched _ => true
  | .generation_complete _ => true
  | .error _ => true
  | .finished => false

/-- Whether a signal is the worker's `error` signal. -/
def isErrorSig : Sig → Bool
  | .error _ => true
  | _ => false

/-- Whether a network outcome is a failure of the taxonomy (anything but a
parsed payload). -/
def netFailure : NetOutcome → Bool
  | .ok _ => false
  | _ => true

/-- The failure taxonomy for a FetchModels task: missing endpoint,
unsupported API type, or a network-level failure. -/
def fetchTaxFailure (endpoint apiType : String) (net : NetOutcome) : Bool :=
  endpoint == "" || (apiType != "Ollama" && apiType != "OpenAI") || netFailure net

/-- The failure taxonomy for a Generate task: missing endpoint, missing
model, unsupported API type, or a network-level failure. -/
def genTaxFailure (endpoint apiType model : String) (net : NetOutcome) : Bool :=
  endpoint == "" || model == "" ||
    (apiType != "Ollama" && apiType != "OpenAI") || netFailure net

/-! ## Helper lemmas about the editor operations -/

theorem pe_mark_dirty_peContent (s : MainState) :
    (pe_mark_dirty s).peContent = s.peContent := by
  unfold pe_mark_dirty; split <;> rfl

theorem load_success_fields (fs : Fs) (path content : String) (s : MainState)
    (h : alGet fs path = some content) :
    (load_file_into_pe_editor fs path s).peContent = content ∧
    (load_file_into_pe_editor fs path s).promptEditorDirty = false ∧
    (load_file_into_pe_editor fs path s).currentPromptEditorFile = some path ∧
    (load_file_into_pe_editor fs path s).saveTargetFile = some path ∧
    (load_file_into_pe_editor fs path s).peEnabled = true := by
  simp only [load_file_into_pe_editor, h, pe_clear_dirty_flag, pe_set_text,
    pe_mark_dirty]
  split <;> simp

/-! ## Claim theorems -/

/-- C9: calling `_pe_close_file` with `force=false` on a dirty prompt-editor
session, when the user declines the confirmation, returns the declined
outcome and leaves the whole state record — content, backing path, dirty
flag, save target, everything — unchanged. -/
theorem close_declined_leaves_state (s : MainState) (p : String)
    (hf : s.currentPromptEditorFile = some p)
    (hd : s.promptEditorDirty = true) :
    pe_close_file false false s = (s, CloseOutcome.declined) := by
  simp [pe_close_file, hf, hd]

/-- Witness for C9 at a concrete dirty session. -/
theorem close_declined_leaves_state_witness :
    ((⟨1, 1, false, true, some "a.txt", some "a.txt", "x", true, false⟩ :
        MainState).currentPromptEditorFile = some "a.txt") ∧
    ((⟨1, 1, false, true, some "a.txt", some "a.txt", "x", true, false⟩ :
        MainState).promptEditorDirty = true) ∧
    pe_close_file false false
        ⟨1, 1, false, true, some "a.txt", some "a.txt", "x", true, false⟩
      = (⟨1, 1, false, true, some "a.txt", some "a.txt", "x", true, false⟩,
         CloseOutcome.declined) :=
  ⟨rfl, rfl,
   close_declined_leaves_state
     ⟨1, 1, false, true, some "a.txt", some "a.txt", "x", true, false⟩
     "a.txt" rfl rfl⟩

/-- C8: a request to delete the preset named exactly the distinguished
default is rejected by the window before calling the repository, and the
repository function itself also rejects it before invoking `os.remove`; the
preset files and the active preset are unchanged. -/
theorem delete_default_rejected (st : PresetState) (confirm : Bool) :
    delete_selected_preset (some DEFAULT_PROMPT_NAME) confirm st
      = ⟨st, false, false⟩ ∧
    delete_prompt_preset DEFAULT_PROMPT_NAME confirm st.files
      = ⟨false, st.files, false⟩ := by
  constructor
  · simp only [delete_selected_preset]
    rw [if_pos (beq_self_eq_true DEFAULT_PROMPT_NAME.toLower)]
  · simp only [delete_prompt_preset]
    rw [if_pos (by decide)]

/-- C5: for every execution of the worker body — returning a model list,
returning a result dictionary, or raising — at most one terminal outcome is
emitted (so success and error are each emitted at most once and never both),
and the `finished` signal is emitted exactly once, as the last signal. -/
theorem worker_single_outcome_then_finished (o : FnOutcome) :
    (ApiWorker_run o).countP (fun g => isTerminalSig g) ≤ 1 ∧
    (ApiWorker_run o).countP (fun g => isErrorSig g) ≤ 1 ∧
    (ApiWorker_run o).countP (fun g => g == Sig.finished) = 1 ∧
    (ApiWorker_run o).getLast? = some Sig.finished := by
  cases o <;>
    simp [ApiWorker_run, List.countP_cons, isTerminalSig, isErrorSig,
      List.getLast?]

/-- C6: with a newly chosen non-existent target, appending `"hello"` leaves
the file containing exactly `"hello"`; a second append of `"world"` yields
`"hello"`, two newlines, twenty equals signs, two newlines, `"world"`; and an
existing but empty target likewise receives no leading separator. -/
theorem append_separator_scenario :
    (let st0 : MainState := ⟨0, 0, false, false, none, none, "", false, true⟩
     let step1 := save_generated_prompt "hello" (some "a.txt") true true [] st0
     let step2 := save_generated_prompt "world" none true true step1.1 step1.2
     step1.1 = [("a.txt", "hello")] ∧
     alGet step2.1 "a.txt" = some "hello\n\n====================\n\nworld" ∧
     alGet step2.1 "a.txt" = some ("hello" ++ SEPARATOR ++ "world")) ∧
    (save_generated_prompt "hello" none true true [("a.txt", "")]
        ⟨0, 0, false, false, some "a.txt", none, "", false, true⟩).1
      = [("a.txt", "hello")] := by
  decide

/-- C1 counterexample: with the navigator at the Generator view and the
PromptEditor session dirty, requesting the SystemPrompts view shows no
confirmation dialog at all and the transition goes through, so the current
view does not remain Generator even though the (never-consulted)
confirmation answer is negative. -/
theorem nav_from_generator_ignores_pe_dirty_cex :
    ((⟨0, 0, false, true, some "f.txt", some "f.txt", "x", true, false⟩ :
        MainState).promptEditorDirty = true) ∧
    (on_nav_changed false SYSTEM_PROMPTS_VIEW_INDEX [("f.txt", "x")]
        ⟨0, 0, false, true, some "f.txt", some "f.txt", "x", true, false⟩).2
      = false ∧
    (on_nav_changed false SYSTEM_PROMPTS_VIEW_INDEX [("f.txt", "x")]
        ⟨0, 0, false, true, some "f.txt", some "f.txt", "x", true, false⟩).1.currentIndex
      = SYSTEM_PROMPTS_VIEW_INDEX := by
  decide

/-- C2 counterexample: a user-authorized navigation away from the dirty
Prompt Editor view clears the session's dirty flag even though the session
is neither closed nor reloaded nor saved — its content and backing file are
untouched and no file write happens. -/
theorem nav_leave_clears_dirty_cex :
    ((⟨1, 1, false, true, some "f.txt", some "f.txt", "x", true, false⟩ :
        MainState).promptEditorDirty = true) ∧
    (on_nav_changed true GENERATOR_VIEW_INDEX [("f.txt", "old")]
        ⟨1, 1, false, true, some "f.txt", some "f.txt", "x", true, false⟩).1.promptEditorDirty
      = false ∧
    (on_nav_changed true GENERATOR_VIEW_INDEX [("f.txt", "old")]
        ⟨1, 1, false, true, some "f.txt", some "f.txt", "x", true, false⟩).1.currentPromptEditorFile
      = some "f.txt" ∧
    (on_nav_changed true GENERATOR_VIEW_INDEX [("f.txt", "old")]
        ⟨1, 1, false, true, some "f.txt", some "f.txt", "x", true, false⟩).1.peContent
      = "x" := by
  decide

/-- C4 counterexample: a failed load (missing file) does not leave the
session as it was — it force-closes the editor, clearing the backing path,
the content, the dirty flag and the generation save target. -/
theorem load_failure_mutates_state_cex :
    (load_file_into_pe_editor [("a.txt", "old")] "missing.txt"
        ⟨1, 1, false, true, some "a.txt", some "a.txt", "x", true, false⟩).currentPromptEditorFile
      = none ∧
    (load_file_into_pe_editor [("a.txt", "old")] "missing.txt"
        ⟨1, 1, false, true, some "a.txt", some "a.txt", "x", true, false⟩).saveTargetFile
      = none ∧
    (load_file_into_pe_editor [("a.txt", "old")] "missing.txt"
        ⟨1, 1, false, true, some "a.txt", some "a.txt", "x", true, false⟩).promptEditorDirty
      = false ∧
    (load_file_into_pe_editor [("a.txt", "old")] "missing.txt"
        ⟨1, 1, false, true, some "a.txt", some "a.txt", "x", true, false⟩).peContent
      = "" ∧
    load_file_into_pe_editor [("a.txt", "old")] "missing.txt"
        ⟨1, 1, false, true, some "a.txt", some "a.txt", "x", true, false⟩
      ≠ ⟨1, 1, false, true, some "a.txt", some "a.txt", "x", true, false⟩ := by
  decide

/-- C3 counterexample: a timeout — squarely in the failure taxonomy — is not
delivered through the worker's error signal for either task kind: the fetch
worker emits `models_fetched []` and the generate worker emits
`generation_complete` carrying an error dictionary, each followed by
`finished`, with no `error` signal at all. -/
theorem task_failure_not_via_error_cex :
    run_fetch_task "http://localhost:11434" "Ollama" NetOutcome.timeout
      = [Sig.models_fetched [], Sig.finished] ∧
    (run_fetch_task "http://localhost:11434" "Ollama" NetOutcome.timeout).any
        (fun g => isErrorSig g) = false ∧
    run_generate_task "http://localhost:11434" "Ollama" "llama3" false
        NetOutcome.timeout
      = [Sig.generation_complete
           (GenResult.error "Request timed out trying to generate text."),
         Sig.finished] ∧
    (run_generate_task "http://localhost:11434" "Ollama" "llama3" false
        NetOutcome.timeout).any (fun g => isErrorSig g) = false := by
  decide

/-- C1 (amended): the navigation gate consults only the dirty session owned
by the view being left.  At the PromptEditor view with a dirty session,
every requested transition asks for confirmation and, on decline, is aborted
with the current view (and all session state) unchanged; whereas a
transition from the Generator view to SystemPrompts proceeds with no
confirmation at all, even while the PromptEditor session is dirty. -/
theorem nav_dirty_gate_amended (s t : MainState) (fs : Fs) (row : Nat)
    (hs1 : s.currentIndex = PROMPT_EDITOR_VIEW_INDEX)
    (hs2 : s.promptEditorDirty = true)
    (ht : t.currentIndex = GENERATOR_VIEW_INDEX) :
    ((on_nav_changed false row fs s).2 = true ∧
     (on_nav_changed false row fs s).1
        = { s with navRow := PROMPT_EDITOR_VIEW_INDEX }) ∧
    ((on_nav_changed false SYSTEM_PROMPTS_VIEW_INDEX fs t).2 = false ∧
     (on_nav_changed false SYSTEM_PROMPTS_VIEW_INDEX fs t).1.currentIndex
        = SYSTEM_PROMPTS_VIEW_INDEX) := by
  constructor
  · simp [on_nav_changed, hs1, hs2, SYSTEM_PROMPTS_VIEW_INDEX,
      PROMPT_EDITOR_VIEW_INDEX]
  · simp [on_nav_changed, navSwitch, ht, SYSTEM_PROMPTS_VIEW_INDEX,
      PROMPT_EDITOR_VIEW_INDEX, GENERATOR_VIEW_INDEX]

/-- Witness for the amended C1 at concrete states. -/
theorem nav_dirty_gate_amended_witness :
    ((⟨1, 1, false, true, some "f.txt", some "f.txt", "x", true, false⟩ :
        MainState).currentIndex = PROMPT_EDITOR_VIEW_INDEX) ∧
    ((⟨1, 1, false, true, some "f.txt", some "f.txt", "x", true, false⟩ :
        MainState).promptEditorDirty = true) ∧
    ((⟨0, 0, false, true, none, none, "", false, true⟩ :
        MainState).currentIndex = GENERATOR_VIEW_INDEX) ∧
    (((on_nav_changed false SYSTEM_PROMPTS_VIEW_INDEX []
         ⟨1, 1, false, true, some "f.txt", some "f.txt", "x", true, false⟩).2
        = true ∧
      (on_nav_changed false SYSTEM_PROMPTS_VIEW_INDEX []
         ⟨1, 1, false, true, some "f.txt", some "f.txt", "x", true, false⟩).1
        = { (⟨1, 1, false, true, some "f.txt", some "f.txt", "x", true, false⟩ :
             MainState) with navRow := PROMPT_EDITOR_VIEW_INDEX }) ∧
     ((on_nav_changed false SYSTEM_PROMPTS_VIEW_INDEX []
         ⟨0, 0, false, true, none, none, "", false, true⟩).2 = false ∧
      (on_nav_changed false SYSTEM_PROMPTS_VIEW_INDEX []
         ⟨0, 0, false, true, none, none, "", false, true⟩).1.currentIndex
        = SYSTEM_PROMPTS_VIEW_INDEX)) :=
  ⟨by decide, by decide, by decide,
   nav_dirty_gate_amended
     ⟨1, 1, false, true, some "f.txt", some "f.txt", "x", true, false⟩
     ⟨0, 0, false, true, none, none, "", false, true⟩
     [] SYSTEM_PROMPTS_VIEW_INDEX (by decide) (by decide) (by decide)⟩

/-- C2 (amended): a user-authorized navigation away from the dirty
PromptEditor view clears that session's dirty flag even though the session
is neither closed nor reloaded and nothing was saved: the resulting state is
exactly the old state with the view switched and the dirty flag reset, so
`close` and `load` are not the only operations that clear `dirty` without a
prior successful save. -/
theorem nav_leave_clears_dirty_amended (s : MainState) (fs : Fs)
    (hs1 : s.currentIndex = PROMPT_EDITOR_VIEW_INDEX)
    (hs2 : s.promptEditorDirty = true) :
    (on_nav_changed true GENERATOR_VIEW_INDEX fs s).1
      = { s with navRow := GENERATOR_VIEW_INDEX,
                 currentIndex := GENERATOR_VIEW_INDEX,
                 promptEditorDirty := false } := by
  simp [on_nav_changed, navSwitch, pe_clear_dirty_flag, clear_dirty_flag,
    hs1, hs2, SYSTEM_PROMPTS_VIEW_INDEX, PROMPT_EDITOR_VIEW_INDEX,
    GENERATOR_VIEW_INDEX]

/-- Witness for the amended C2 at a concrete dirty state. -/
theorem nav_leave_clears_dirty_amended_witness :
    ((⟨1, 1, false, true, some "f.txt", some "f.txt", "x", true, false⟩ :
        MainState).currentIndex = PROMPT_EDITOR_VIEW_INDEX) ∧
    ((⟨1, 1, false, true, some "f.txt", some "f.txt", "x", true, false⟩ :
        MainState).promptEditorDirty = true) ∧
    (on_nav_changed true GENERATOR_VIEW_INDEX []
        ⟨1, 1, false, true, some "f.txt", some "f.txt", "x", true, false⟩).1
      = { (⟨1, 1, false, true, some "f.txt", some "f.txt", "x", true, false⟩ :
           MainState) with
          navRow := GENERATOR_VIEW_INDEX,
          currentIndex := GENERATOR_VIEW_INDEX,
          promptEditorDirty := false } :=
  ⟨by decide, by decide,
   nav_leave_clears_dirty_amended
     ⟨1, 1, false, true, some "f.txt", some "f.txt", "x", true, false⟩
     [] (by decide) (by decide)⟩

/-- C4 (amended): when loading a file into the prompt-editor session fails,
the operation is aborted with a user-visible message but the state is not
left as it was: the editor is force-closed exactly as by
`_pe_close_file(force=True)` — content, backing path and dirty flag cleared,
session disabled, and the generation save target cleared when it equals the
previously open file.  Only when no file was open does the failed load leave
the state unchanged. -/
theorem load_failure_force_closes (fs : Fs) (path : String) (s : MainState)
    (h : alGet fs path = none) :
    load_file_into_pe_editor fs path s = (pe_close_file true true s).1 ∧
    (s.currentPromptEditorFile = none → load_file_into_pe_editor fs path s = s) := by
  constructor
  · simp [load_file_into_pe_editor, h]
  · intro hn
    simp [load_file_into_pe_editor, h, pe_close_file, hn]

/-- Witness for the amended C4 at a concrete state with an open file. -/
theorem load_failure_force_closes_witness :
    alGet ([("a.txt", "old")] : Fs) "missing.txt" = none ∧
    (load_file_into_pe_editor [("a.txt", "old")] "missing.txt"
        ⟨1, 1, false, true, some "a.txt", some "a.txt", "x", true, false⟩
      = (pe_close_file true true
          ⟨1, 1, false, true, some "a.txt", some "a.txt", "x", true, false⟩).1 ∧
     ((⟨1, 1, false, true, some "a.txt", some "a.txt", "x", true, false⟩ :
         MainState).currentPromptEditorFile = none →
      load_file_into_pe_editor [("a.txt", "old")] "missing.txt"
          ⟨1, 1, false, true, some "a.txt", some "a.txt", "x", true, false⟩
        = ⟨1, 1, false, true, some "a.txt", some "a.txt", "x", true, false⟩)) :=
  ⟨by decide,
   load_failure_force_closes [("a.txt", "old")] "missing.txt"
     ⟨1, 1, false, true, some "a.txt", some "a.txt", "x", true, false⟩
     (by decide)⟩

theorem fetch_failure_empty (endpoint apiType : String) (net : NetOutcome)
    (hf : fetchTaxFailure endpoint apiType net = true) :
    fetch_installed_models endpoint apiType net = [] := by
  by_cases he : (endpoint == "") = true
  · simp [fetch_installed_models, he]
  · have he' : (endpoint == "") = false := by
      cases hx : endpoint == "" with
      | false => rfl
      | true => exact absurd hx he
    cases net with
    | ok payload =>
        have hun : (apiType != "Ollama" && apiType != "OpenAI") = true := by
          simpa [fetchTaxFailure, netFailure, he'] using hf
        obtain ⟨h1, h2⟩ := Bool.and_eq_true_iff.mp hun
        have ho : (apiType == "Ollama") = false := by
          simpa [bne] using h1
        have hoa : (apiType == "OpenAI") = false := by
          simpa [bne] using h2
        simp [fetch_installed_models, he', ho, hoa]
    | timeout => simp [fetch_installed_models, he']
    | connError msg => simp [fetch_installed_models, he']
    | httpError status body => simp [fetch_installed_models, he']
    | badJson msg => simp [fetch_installed_models, he']

theorem gen_failure_error (endpoint apiType model : String) (fmtMissing : Bool)
    (net : NetOutcome) (hg : genTaxFailure endpoint apiType model net = true) :
    ∃ msg, generate_text endpoint apiType model fmtMissing net
      = GenResult.error msg := by
  by_cases he : (endpoint == "") = true
  · exact ⟨"API endpoint is not configured.", by simp [generate_text, he]⟩
  · have he' : (endpoint == "") = false := by
      cases hx : endpoint == "" with
      | false => rfl
      | true => exact absurd hx he
    by_cases hm : (model == "") = true
    · exact ⟨"No AI model selected.", by simp [generate_text, he', hm]⟩
    · have hm' : (model == "") = false := by
        cases hx : model == "" with
        | false => rfl
        | true => exact absurd hx hm
      cases net with
      | ok payload =>
          have hun : (apiType != "Ollama" && apiType != "OpenAI") = true := by
            simpa [genTaxFailure, netFailure, he', hm'] using hg
          obtain ⟨h1, h2⟩ := Bool.and_eq_true_iff.mp hun
          have ho : (apiType == "Ollama") = false := by
            simpa [bne] using h1
          have hoa : (apiType == "OpenAI") = false := by
            simpa [bne] using h2
          exact ⟨"Unsupported API type for generation: " ++ apiType,
            by simp [generate_text, he', hm', ho, hoa]⟩
      | timeout =>
          simp only [generate_text, he', hm']
          repeat first
          | exact ⟨_, rfl⟩
          | split
      | connError msg =>
          simp only [generate_text, he', hm']
          repeat first
          | exact ⟨_, rfl⟩
          | split
      | httpError status body =>
          simp only [generate_text, he', hm']
          repeat first
          | exact ⟨_, rfl⟩
          | split
      | badJson msg =>
          simp only [generate_text, he', hm']
          repeat first
          | exact ⟨_, rfl⟩
          | split

/-- C3 (amended): no failure of the taxonomy — missing endpoint, missing
model, unsupported API type, timeout, connection failure, HTTP error,
malformed response — reaches the worker's `error` signal, because both API
functions catch every failure internally: a failing FetchModels task
delivers an empty model list via `models_fetched`, and a failing Generate
task delivers an error dictionary via `generation_complete`, each followed
by `finished`; the `error` signal would fire only for an exception escaping
the task body, which these failures never produce. -/
theorem task_failures_in_result_amended (endpoint apiType model : String)
    (fmtMissing : Bool) (net : NetOutcome)
    (hf : fetchTaxFailure endpoint apiType net = true)
    (hg : genTaxFailure endpoint apiType model net = true) :
    run_fetch_task endpoint apiType net
      = [Sig.models_fetched [], Sig.finished] ∧
    (run_fetch_task endpoint apiType net).any (fun g => isErrorSig g) = false ∧
    (∃ msg, run_generate_task endpoint apiType model fmtMissing net
        = [Sig.generation_complete (GenResult.error msg), Sig.finished]) ∧
    (run_generate_task endpoint apiType model fmtMissing net).any
        (fun g => isErrorSig g) = false := by
  have h1 := fetch_failure_empty endpoint apiType net hf
  obtain ⟨msg, h2⟩ := gen_failure_error endpoint apiType model fmtMissing net hg
  refine ⟨?_, ?_, ⟨msg, ?_⟩, ?_⟩
  · simp [run_fetch_task, ApiWorker_run, h1]
  · simp [run_fetch_task, ApiWorker_run, isErrorSig]
  · simp [run_generate_task, ApiWorker_run, h2]
  · simp [run_generate_task, ApiWorker_run, isErrorSig]

/-- Witness for the amended C3: a missing endpoint with a timed-out
exchange. -/
theorem task_failures_in_result_amended_witness :
    fetchTaxFailure "" "Ollama" NetOutcome.timeout = true ∧
    genTaxFailure "" "Ollama" "llama3" NetOutcome.timeout = true ∧
    (run_fetch_task "" "Ollama" NetOutcome.timeout
       = [Sig.models_fetched [], Sig.finished] ∧
     (run_fetch_task "" "Ollama" NetOutcome.timeout).any
         (fun g => isErrorSig g) = false ∧
     (∃ msg, run_generate_task "" "Ollama" "llama3" false NetOutcome.timeout
         = [Sig.generation_complete (GenResult.error msg), Sig.finished]) ∧
     (run_generate_task "" "Ollama" "llama3" false NetOutcome.timeout).any
         (fun g => isErrorSig g) = false) :=
  ⟨by decide, by decide,
   task_failures_in_result_amended "" "Ollama" "llama3" false NetOutcome.timeout
     (by decide) (by decide)⟩

/-- C7: appending generated text when the generation target equals the
prompt editor's backing path while the session is clean reloads the editor
from disk: afterwards the target file holds the appended content, the editor
content equals that new file content, and the dirty flag is false. -/
theorem append_reload_clean_editor (r : String) (dr : Option String)
    (ca cr : Bool) (fs : Fs) (s : MainState) (p : String)
    (hst : s.saveTargetFile = some p)
    (hcur : s.currentPromptEditorFile = some p)
    (hdirty : s.promptEditorDirty = false)
    (hg1 : pstrip r ≠ "")
    (hg2 : containsSub (pstrip r) "Generating..." = false)
    (hg3 : containsSub (pstrip r) "Error:" = false) :
    (save_generated_prompt r dr ca cr fs s).1
        = alSet fs p (appendedContent (alGet fs p) (pstrip r)) ∧
    alGet (save_generated_prompt r dr ca cr fs s).1 p
        = some (appendedContent (alGet fs p) (pstrip r)) ∧
    (save_generated_prompt r dr ca cr fs s).2.peContent
        = appendedContent (alGet fs p) (pstrip r) ∧
    (save_generated_prompt r dr ca cr fs s).2.promptEditorDirty = false := by
  have hgeq : (pstrip r == "") = false := by
    simpa using hg1
  have hred : save_generated_prompt r dr ca cr fs s
      = (alSet fs p (appendedContent (alGet fs p) (pstrip r)),
         load_file_into_pe_editor
           (alSet fs p (appendedContent (alGet fs p) (pstrip r))) p s) := by
    simp [save_generated_prompt, hgeq, hg2, hg3, hst, hcur, hdirty]
  obtain ⟨hc1, hc2, -, -, -⟩ := load_success_fields
    (alSet fs p (appendedContent (alGet fs p) (pstrip r))) p
    (appendedContent (alGet fs p) (pstrip r)) s
    (alGet_alSet_self fs p _)
  rw [hred]
  exact ⟨rfl, alGet_alSet_self fs p _, hc1, hc2⟩

/-- Witness for C7: appending `"world"` while `a.txt` (holding `"hello"`) is
open and clean in the editor. -/
theorem append_reload_clean_editor_witness :
    ((⟨0, 0, false, false, some "a.txt", some "a.txt", "hello", true, false⟩ :
        MainState).saveTargetFile = some "a.txt") ∧
    ((⟨0, 0, false, false, some "a.txt", some "a.txt", "hello", true, false⟩ :
        MainState).currentPromptEditorFile = some "a.txt") ∧
    ((⟨0, 0, false, false, some "a.txt", some "a.txt", "hello", true, false⟩ :
        MainState).promptEditorDirty = false) ∧
    pstrip "world" ≠ "" ∧
    containsSub (pstrip "world") "Generating..." = false ∧
    containsSub (pstrip "world") "Error:" = false ∧
    ((save_generated_prompt "world" none true true [("a.txt", "hello")]
        ⟨0, 0, false, false, some "a.txt", some "a.txt", "hello", true, false⟩).1
        = alSet [("a.txt", "hello")] "a.txt"
            (appendedContent (alGet [("a.txt", "hello")] "a.txt")
              (pstrip "world")) ∧
     alGet (save_generated_prompt "world" none true true [("a.txt", "hello")]
        ⟨0, 0, false, false, some "a.txt", some "a.txt", "hello", true, false⟩).1
          "a.txt"
        = some (appendedContent (alGet [("a.txt", "hello")] "a.txt")
            (pstrip "world")) ∧
     (save_generated_prompt "world" none true true [("a.txt", "hello")]
        ⟨0, 0, false, false, some "a.txt", some "a.txt", "hello", true, false⟩).2.peContent
        = appendedContent (alGet [("a.txt", "hello")] "a.txt") (pstrip "world") ∧
     (save_generated_prompt "world" none true true [("a.txt", "hello")]
        ⟨0, 0, false, false, some "a.txt", some "a.txt", "hello", true, false⟩).2.promptEditorDirty
        = false) :=
  ⟨by decide, by decide, by decide, by decide, by decide, by decide,
   append_reload_clean_editor "world" none true true [("a.txt", "hello")]
     ⟨0, 0, false, false, some "a.txt", some "a.txt", "hello", true, false⟩
     "a.txt" (by decide) (by decide) (by decide) (by decide) (by decide)
     (by decide)⟩
